import Mathlib

/-!
Verification of the multi-round tool-orchestration loop and tool layer of the
RAG chatbot backend (`backend/ai_generator.py`, `backend/search_tools.py`).

The Python code is shallowly embedded: stateless methods become pure
functions; instance state (a tool's `last_sources`, the manager's
`last_executed_tool`) is passed and returned explicitly; Python exceptions
become `Except String`; Python `None` becomes `Option`.  The external
Completion Service (`self.client.messages.create`) is a parameter of type
`CompletionService`, and each orchestration run returns, besides the answer
string, the trace of the parameter records it sent to that service (one
entry per `messages.create` invocation, split into the in-loop calls and
the optional forced final call).
-/

/-- One content block of a Completion Service (model) response.  The source
only ever inspects the `type` tag (`"text"` / `"tool_use"`) and the fields
read here; any other block type is `other`. -/
inductive RespBlock where
  | text (s : String)
  | toolUse (id name : String) (input : List (String × String))
  | other
deriving Repr, DecidableEq

/-- The tool-result dict built by `AIGenerator._execute_tool_round`
(`{"type": "tool_result", "tool_use_id": ..., "content": ..., "is_error": ...}`;
the source only adds the `is_error` key in the failure branch, modelled as
the boolean being `false` in the success branch). -/
structure ToolResult where
  tool_use_id : String
  content : String
  is_error : Bool
deriving Repr, DecidableEq

/-- Content of one conversation message: the initial user query is a plain
string, an assistant turn carries the model response blocks, and the
orchestrator-issued user turn carries a list of tool results. -/
inductive MsgContent where
  | str (s : String)
  | blocks (bs : List RespBlock)
  | toolResults (rs : List ToolResult)
deriving Repr, DecidableEq

/-- One message of the accumulated conversation. -/
structure Message where
  role : String
  content : MsgContent
deriving Repr, DecidableEq

/-- Observable part of a Completion Service response: stop reason and
ordered content blocks. -/
structure ModelResponse where
  stop_reason : String
  content : List RespBlock
deriving Repr, DecidableEq

/-- An Anthropic tool definition, restricted to the one key the orchestrator
and registry code actually read (`tool_def.get("name")`); description and
input schema are never inspected by the code under verification. -/
structure ToolDef where
  name : Option String
deriving Repr, DecidableEq

/-- The parameter record of one `messages.create` call, restricted to the
fields the claims are about.  The constant base parameters
(`model`, `temperature = 0`, `max_tokens = 800`) are the same on every call
and are omitted.  `tools = none` models the absence of the `"tools"` key;
`tool_choice_auto` models presence of `"tool_choice": {"type": "auto"}`. -/
structure ApiParams where
  system : String
  messages : List Message
  tools : Option (List ToolDef)
  tool_choice_auto : Bool
deriving Repr, DecidableEq

/-- The external Completion Service: a deterministic response for each
parameter record. -/
abbrev CompletionService := ApiParams → ModelResponse

/-- The tool executor seen by the orchestrator
(`tool_manager.execute_tool(name, **input)`): returns the tool's string
output, or `.error msg` when the Python call raises an exception whose
`str(e)` is `msg`. -/
abbrev ToolExecutor := String → List (String × String) → Except String String

/-- Result of one orchestration run: the returned answer plus the trace of
Completion Service calls (in-loop calls in order, then the forced final
call when the round cap was exhausted). -/
structure RunResult where
  answer : String
  loopCalls : List ApiParams
  finalCall : Option ApiParams
deriving Repr, DecidableEq

/-- Total number of Completion Service calls recorded in a run's trace. -/
def RunResult.totalCalls (r : RunResult) : Nat :=
  r.loopCalls.length + (match r.finalCall with | some _ => 1 | none => 0)

/-- `AIGenerator._extract_text_response`: first `text` block's text, else
the empty string. -/
def extract_text_response : List RespBlock → String
  | [] => ""
  | .text s :: _ => s
  | _ :: rest => extract_text_response rest

/-- `AIGenerator._execute_tool_round`: dispatch every `tool_use` block in
order; a raising dispatch (`.error e`) is converted to an error-flagged
tool result embedding `str(e)` instead of propagating. -/
def execute_tool_round (tool_manager : ToolExecutor) : List RespBlock → List ToolResult
  | [] => []
  | .toolUse id name input :: rest =>
    (match tool_manager name input with
     | .ok r => { tool_use_id := id, content := r, is_error := false }
     | .error e => { tool_use_id := id, content := "Error executing tool: " ++ e, is_error := true })
      :: execute_tool_round tool_manager rest
  | _ :: rest => execute_tool_round tool_manager rest

/-- The `(id, name, input)` triples of the `tool_use` blocks of a content
list, in order. -/
def toolUses : List RespBlock → List (String × String × List (String × String))
  | [] => []
  | .toolUse id name input :: rest => (id, name, input) :: toolUses rest
  | _ :: rest => toolUses rest

/-- The ids of the `tool_use` blocks of a content list, in order. -/
def toolUseIds : List RespBlock → List String
  | [] => []
  | .toolUse id _ _ :: rest => id :: toolUseIds rest
  | _ :: rest => toolUseIds rest

/-- Python truthiness of the `tools` argument (`if tools:`): `None` and the
empty list are falsy. -/
def toolsTruthy : Option (List ToolDef) → Bool
  | none => false
  | some ts => !ts.isEmpty

/-- The parameter record of an in-loop `messages.create` call (source lines
99-108): tools and auto tool choice are included exactly when the `tools`
argument is truthy. -/
def loopApiParams (system_content : String) (tools : Option (List ToolDef))
    (messages : List Message) : ApiParams :=
  if toolsTruthy tools then
    { system := system_content, messages := messages, tools := tools, tool_choice_auto := true }
  else
    { system := system_content, messages := messages, tools := none, tool_choice_auto := false }

/-- The parameter record of the forced final call (source lines 145-150):
no `tools`, no `tool_choice`. -/
def finalApiParams (system_content : String) (messages : List Message) : ApiParams :=
  { system := system_content, messages := messages, tools := none, tool_choice_auto := false }

/-- The `while current_round < max_rounds` loop of
`AIGenerator.generate_response`, with `fuel = max_rounds - current_round`
remaining iterations.  At `fuel = 0` the forced final call without tools is
made; otherwise one in-loop call is made and, on a `tool_use` stop reason
with a tool manager present and a nonempty result batch, the conversation
grows by the assistant message and the grouped tool-result user message and
the loop recurses. -/
def generate_loop (client : CompletionService) (system_content : String)
    (tools : Option (List ToolDef)) (tool_manager : Option ToolExecutor)
    (messages : List Message) : Nat → RunResult
  | 0 =>
    let final_params := finalApiParams system_content messages
    let final_response := client final_params
    { answer := extract_text_response final_response.content,
      loopCalls := [], finalCall := some final_params }
  | fuel + 1 =>
    let api_params := loopApiParams system_content tools messages
    let response := client api_params
    if response.stop_reason ≠ "tool_use" then
      { answer := extract_text_response response.content,
        loopCalls := [api_params], finalCall := none }
    else
      let messages1 := messages ++ [{ role := "assistant", content := .blocks response.content }]
      match tool_manager with
      | some tm =>
        let tool_results := execute_tool_round tm response.content
        if tool_results.isEmpty then
          { answer := "Error: Unable to execute requested tools.",
            loopCalls := [api_params], finalCall := none }
        else
          let messages2 := messages1 ++ [{ role := "user", content := .toolResults tool_results }]
          let rest := generate_loop client system_content tools (some tm) messages2 fuel
          { rest with loopCalls := api_params :: rest.loopCalls }
      | none =>
        { answer := "Error: Tools requested but no tool manager available.",
          loopCalls := [api_params], finalCall := none }

/-- The static system prompt (`AIGenerator.SYSTEM_PROMPT`); its exact text
is never branched on by the code under verification. -/
def SYSTEM_PROMPT : String :=
  "You are an AI assistant specialized in course materials and educational content with access to tools for course information.\n" ++
  "\n" ++
  "Available Tools:\n" ++
  "\n" ++
  "**1. Course Content Search** (`search_course_content`)\n" ++
  "- Use for: Questions about specific topics, concepts, or detailed course content\n" ++
  "- Searches: Inside course materials to find relevant information\n" ++
  "- Examples: \"What is prompt caching?\", \"How do I use tool calling?\", \"Explain RAG in lesson 3\"\n" ++
  "\n" ++
  "**2. Course Outline** (`get_course_outline`)\n" ++
  "- Use for: Questions about course structure, lesson lists, what\x27s covered, curriculum overview\n" ++
  "- Retrieves: Complete lesson list with titles, course link, instructor, and course metadata\n" ++
  "- **IMPORTANT**: When using this tool, you MUST include the course link in your response if the tool provides it\n" ++
  "- Examples: \"What lessons are in the MCP course?\", \"Show me the course outline\", \"What topics does the Computer Use course cover?\"\n" ++
  "\n" ++
  "Tool Usage Protocol:\n" ++
  "- **Up to 2 sequential tool calls per query** - You can make tool calls in separate rounds\n" ++
  "- **Chain operations** - Use results from first tool call to inform the second\n" ++
  "- **Common multi-step patterns**:\n" ++
  "  * Get course outline → Search specific lesson content\n" ++
  "  * Search one course → Compare with another course\n" ++
  "  * Find lesson by description → Retrieve detailed content\n" ++
  "- Synthesize tool results into accurate, fact-based responses\n" ++
  "- If tool yields no results, state this clearly without offering alternatives\n" ++
  "\n" ++
  "When to Use Tools vs. General Knowledge:\n" ++
  "- **Use tools**: Course-specific questions, lesson details, specific content queries\n" ++
  "- **Use general knowledge**: General educational concepts, programming fundamentals, broad technical questions\n" ++
  "- **No meta-commentary**: Don\x27t explain which tool you used or why\n" ++
  "\n" ++
  "Response Protocol:\n" ++
  "- **Brief, concise and focused** - Get to the point quickly\n" ++
  "- **Educational** - Maintain instructional value\n" ++
  "- **Clear** - Use accessible language\n" ++
  "- **Example-supported** - Include relevant examples when they aid understanding\n" ++
  "- **No reasoning process** - Provide direct answers only, no search explanations or analysis\n" ++
  "\n" ++
  "Format Guidelines:\n" ++
  "- **Outline responses**: Present lesson lists clearly with proper numbering. ALWAYS include the course link when provided by the tool - display it prominently near the course title\n" ++
  "- **Content responses**: Integrate search results naturally without mentioning the search\n" ++
  "- **No meta-commentary**: Never mention \"based on the search results\" or \"according to the outline tool\"\n"

/-- System content construction (source lines 83-87): the prompt, augmented
with prior-session history when `conversation_history` is truthy. -/
def build_system_content (conversation_history : Option String) : String :=
  match conversation_history with
  | some h =>
    if h ≠ "" then SYSTEM_PROMPT ++ "\n\nPrevious conversation:\n" ++ h
    else SYSTEM_PROMPT
  | none => SYSTEM_PROMPT

/-- The initial conversation: exactly one user message holding the query. -/
def initial_messages (query : String) : List Message :=
  [{ role := "user", content := .str query }]

/-- `AIGenerator.generate_response`: one full orchestration run, with
`current_round = 0` and `max_rounds = 2` (so fuel 2). -/
def generate_response (client : CompletionService) (query : String)
    (conversation_history : Option String)
    (tools : Option (List ToolDef)) (tool_manager : Option ToolExecutor) : RunResult :=
  generate_loop client (build_system_content conversation_history) tools tool_manager
    (initial_messages query) 2

/-! ### Search tools layer (`backend/search_tools.py`) -/

/-- A source record tracked for the UI (`{"text": ..., "url": ...}`). -/
structure SourceRecord where
  text : String
  url : Option String
deriving Repr, DecidableEq

/-- One metadata map of a search hit, restricted to the keys
`CourseSearchTool._format_results` reads. -/
structure DocMeta where
  course_title : Option String
  lesson_number : Option Int
deriving Repr, DecidableEq

/-- The `SearchResults` value returned by the Retrieval Service.  The
`distances` field of the source dataclass is never read by the tool code
and is omitted (it is floating-point data). -/
structure SearchResults where
  documents : List String
  metadata : List DocMeta
  error : Option String
deriving Repr, DecidableEq

/-- Modelled from the spec: `vector_store.SearchResults.is_empty`
(`vector_store.py` is not part of the sources; per spec §6 zero-length
`documents` with no error means "no matches", and the repository's
`test_vector_store.py` asserts `is_empty()` exactly for zero-length
`documents`). -/
def SearchResults.is_empty (r : SearchResults) : Bool := r.documents.isEmpty

/-- One lesson entry of the parsed `lessons_json` list, restricted to the
two keys `CourseOutlineTool._format_outline` reads. -/
structure LessonEntry where
  lesson_number : Option Int
  lesson_title : Option String
deriving Repr, DecidableEq

/-- Course-catalog metadata as read by `CourseOutlineTool._format_outline`.
`lessons` is the outcome of `json.loads(metadata.get('lessons_json','[]'))`:
`none` models a `JSONDecodeError` (the source then falls back to `[]`). -/
structure CourseMetadata where
  title : Option String
  instructor : Option String
  course_link : Option String
  lessons : Option (List LessonEntry)
deriving Repr, DecidableEq

/-- The external Retrieval Service (`VectorStore`), modelled by the four
operations the tool code calls.  `catalog_get` models
`course_catalog.get(ids=[title])` together with the source's emptiness
checks on `results['metadatas']`: `.error e` is a raised exception with
message `e`, `.ok none` is a missing/empty metadata record, `.ok (some m)`
is the one metadata map. -/
structure VectorStoreModel where
  search : String → Option String → Option Int → SearchResults
  get_lesson_link : String → Int → Option String
  resolve_course_name : String → Option String
  catalog_get : String → Except String (Option CourseMetadata)

/-- `CourseSearchTool._format_results`: formatted text plus the rebuilt
source list (the source builds both in one pass over
`zip(results.documents, results.metadata)`). -/
def format_results (store : VectorStoreModel) (results : SearchResults) :
    String × List SourceRecord :=
  let pairs := results.documents.zip results.metadata
  let formatted := pairs.map (fun p =>
    let course_title := p.2.course_title.getD "unknown"
    let header := "[" ++ course_title ++
      (match p.2.lesson_number with
       | some n => " - Lesson " ++ toString n
       | none => "") ++ "]"
    header ++ "\n" ++ p.1)
  let sources := pairs.map (fun p =>
    let course_title := p.2.course_title.getD "unknown"
    let source_text := course_title ++
      (match p.2.lesson_number with
       | some n => " - Lesson " ++ toString n
       | none => "")
    let source_url :=
      match p.2.lesson_number with
      | some n => store.get_lesson_link course_title n
      | none => none
    { text := source_text, url := source_url })
  (String.intercalate "\n\n" formatted, sources)

/-- The empty-result message of `CourseSearchTool.execute` (lines 77-83):
the filter clauses are appended under Python truthiness, so a `None` or
empty course name and a `None` or zero lesson number contribute nothing. -/
def search_empty_message (course_name : Option String) (lesson_number : Option Int) : String :=
  "No relevant content found" ++
    (match course_name with
     | some c => if c ≠ "" then " in course \x27" ++ c ++ "\x27" else ""
     | none => "") ++
    (match lesson_number with
     | some n => if n ≠ 0 then " in lesson " ++ toString n else ""
     | none => "") ++ "."

/-- The part of `CourseSearchTool.execute` after the error check: empty
results return the filtered message and leave the tool state untouched;
otherwise `_format_results` runs and overwrites `last_sources`. -/
def execute_after_error_check (store : VectorStoreModel) (last_sources : List SourceRecord)
    (course_name : Option String) (lesson_number : Option Int)
    (results : SearchResults) : String × List SourceRecord :=
  if results.is_empty then
    (search_empty_message course_name lesson_number, last_sources)
  else
    format_results store results

/-- `CourseSearchTool.execute`, with the tool's `last_sources` state passed
in and returned.  A truthy `results.error` string is returned unchanged;
note Python truthiness: an empty error string is falsy and falls through. -/
def CourseSearchTool.execute (store : VectorStoreModel) (last_sources : List SourceRecord)
    (query : String) (course_name : Option String) (lesson_number : Option Int) :
    String × List SourceRecord :=
  let results := store.search query course_name lesson_number
  match results.error with
  | some e =>
    if e ≠ "" then (e, last_sources)
    else execute_after_error_check store last_sources course_name lesson_number results
  | none => execute_after_error_check store last_sources course_name lesson_number results

/-- `CourseOutlineTool._format_outline`: formatted outline text plus the
overwritten `last_sources` (one record when the course link is truthy, else
empty). -/
def format_outline (metadata : CourseMetadata) : String × List SourceRecord :=
  let title := metadata.title.getD "Unknown Course"
  let instructor := metadata.instructor.getD "Unknown Instructor"
  let link_truthy := match metadata.course_link with | some l => l != "" | none => false
  let lessons := metadata.lessons.getD []
  let last_sources :=
    if link_truthy then [{ text := title, url := metadata.course_link }] else ([] : List SourceRecord)
  let title_line :=
    if link_truthy then
      "**Course:** [" ++ title ++ "](" ++ metadata.course_link.getD "" ++ ")"
    else "**Course:** " ++ title
  let lesson_lines :=
    if lessons.isEmpty then ["  No lessons available"]
    else lessons.map (fun l =>
      "  " ++ (match l.lesson_number with | some n => toString n | none => "?") ++ ". " ++
        l.lesson_title.getD "Unknown")
  (String.intercalate "\n"
      ([title_line, "**Instructor:** " ++ instructor, "", "**Lessons:**"] ++ lesson_lines),
   last_sources)

/-- `CourseOutlineTool.execute`, with the tool's `last_sources` state passed
in and returned.  `if not resolved_title:` treats both `None` and the empty
string as unresolved. -/
def CourseOutlineTool.execute (store : VectorStoreModel) (last_sources : List SourceRecord)
    (course_name : String) : String × List SourceRecord :=
  let not_found :=
    "No course found matching \x27" ++ course_name ++ "\x27. Please try a different course name."
  match store.resolve_course_name course_name with
  | none => (not_found, last_sources)
  | some resolved_title =>
    if resolved_title = "" then (not_found, last_sources)
    else
      match store.catalog_get resolved_title with
      | .error e => ("Error retrieving course outline: " ++ e, last_sources)
      | .ok none =>
        ("Course \x27" ++ resolved_title ++ "\x27 found but no metadata available.", last_sources)
      | .ok (some metadata) => format_outline metadata

/-! ### Tool registry (`ToolManager`) -/

/-- A registered tool as the manager sees it: its definition and its
`execute(**kwargs)` method; `.error msg` models a raised exception. -/
structure ToolModel where
  definition : ToolDef
  execute : List (String × String) → Except String String

/-- `ToolManager` state: the insertion-ordered name-keyed dict of tools and
the most-recently-executed tool name. -/
structure ToolManager where
  tools : List (String × ToolModel)
  last_executed_tool : Option String

/-- Python dict assignment `d[k] = v`: replaces in place when the key
exists, else appends. -/
def dict_insert {α : Type} : List (String × α) → String → α → List (String × α)
  | [], k, v => [(k, v)]
  | (k0, v0) :: rest, k, v =>
    if k0 = k then (k0, v) :: rest else (k0, v0) :: dict_insert rest k v

/-- Python dict lookup / `k in d`. -/
def dict_lookup {α : Type} : List (String × α) → String → Option α
  | [], _ => none
  | (k0, v0) :: rest, k => if k0 = k then some v0 else dict_lookup rest k

/-- `ToolManager.register_tool`: raises (`.error`) when the definition has
no truthy name (`if not tool_name:` — missing key or empty string),
otherwise assigns into the dict, silently overwriting any tool already
registered under that name. -/
def ToolManager.register_tool (mgr : ToolManager) (tool : ToolModel) : Except String ToolManager :=
  match tool.definition.name with
  | none => .error "Tool must have a \x27name\x27 in its definition"
  | some n =>
    if n = "" then .error "Tool must have a \x27name\x27 in its definition"
    else .ok { mgr with tools := dict_insert mgr.tools n tool }

/-- `ToolManager.get_tool_definitions`: definitions of all registered tools
in dict (insertion) order. -/
def ToolManager.get_tool_definitions (mgr : ToolManager) : List ToolDef :=
  mgr.tools.map (fun p => p.2.definition)

/-- `ToolManager.execute_tool`: not-found message (no exception) for an
unregistered name; otherwise records the name as most recently executed and
delegates to the tool's `execute` (whose exceptions propagate). -/
def ToolManager.execute_tool (mgr : ToolManager) (tool_name : String)
    (params : List (String × String)) : Except String String × ToolManager :=
  match dict_lookup mgr.tools tool_name with
  | none => (.ok ("Tool \x27" ++ tool_name ++ "\x27 not found"), mgr)
  | some tool => (tool.execute params, { mgr with last_executed_tool := some tool_name })

/-! ### Concrete fixtures used by witnesses and counterexamples -/

/-- A Completion Service that always requests the tool `t`. -/
def wClient : CompletionService :=
  fun _ => { stop_reason := "tool_use", content := [.toolUse "i" "t" []] }

/-- A Completion Service that signals `tool_use` with no `tool_use` blocks. -/
def wClientNoBlocks : CompletionService :=
  fun _ => { stop_reason := "tool_use", content := [.text "x"] }

/-- A Completion Service that immediately answers with text. -/
def wClientText : CompletionService :=
  fun _ => { stop_reason := "end_turn", content := [.text "MCP is..."] }

/-- The response `wClient` always produces. -/
def wResp : ModelResponse := { stop_reason := "tool_use", content := [.toolUse "i" "t" []] }

/-- The response `wClientNoBlocks` always produces. -/
def wRespNoBlocks : ModelResponse := { stop_reason := "tool_use", content := [.text "x"] }

/-- A tool executor that always succeeds with output `out`. -/
def wExec : ToolExecutor := fun _ _ => .ok "out"

/-- A tool executor that always raises with message `boom`. -/
def wExecRaise : ToolExecutor := fun _ _ => .error "boom"

/-- The tool-definition list handed to `wClient` runs. -/
def wToolDefs : List ToolDef := [{ name := some "t" }]

/-- The tool result produced by dispatching `wClient`'s request through
`wExec`. -/
def wTR : ToolResult := { tool_use_id := "i", content := "out", is_error := false }

/-- Assistant message appended for `wClient`'s response. -/
def wAssistantMsg : Message := { role := "assistant", content := .blocks [.toolUse "i" "t" []] }

/-- Grouped tool-result user message for `wClient`'s response via `wExec`. -/
def wToolMsg : Message := { role := "user", content := .toolResults [wTR] }

/-- The forced final call parameters of the run
`generate_response wClient "q" none (some wToolDefs) (some wExec)`. -/
def wFinalParams : ApiParams :=
  { system := SYSTEM_PROMPT,
    messages := [{ role := "user", content := .str "q" },
      wAssistantMsg, wToolMsg, wAssistantMsg, wToolMsg],
    tools := none, tool_choice_auto := false }

/-- A Retrieval Service model whose search always comes back empty with no
error, and whose resolver never resolves. -/
def emptyStore : VectorStoreModel :=
  { search := fun _ _ _ => { documents := [], metadata := [], error := none },
    get_lesson_link := fun _ _ => none,
    resolve_course_name := fun _ => none,
    catalog_get := fun _ => .ok none }

/-- A stale source record left over from an earlier execution. -/
def staleSource : SourceRecord := { text := "stale", url := none }

/-- Tool fixtures for registry claims. -/
def regToolOne : ToolModel :=
  { definition := { name := some "t" }, execute := fun _ => .ok "one" }

/-- A second tool carrying the same name as `regToolOne`. -/
def regToolTwo : ToolModel :=
  { definition := { name := some "t" }, execute := fun _ => .ok "two" }

/-- A tool whose definition lacks a name. -/
def regToolUnnamed : ToolModel :=
  { definition := { name := none }, execute := fun _ => .ok "x" }

/-- An empty tool manager. -/
def emptyManager : ToolManager := { tools := [], last_executed_tool := none }

/-- A manager holding exactly `regToolOne` under name `t`. -/
def oneToolManager : ToolManager := { tools := [("t", regToolOne)], last_executed_tool := none }

/-! ### Helper lemmas -/

/-- `_execute_tool_round` is the pointwise dispatch of the `tool_use`
blocks, in order. -/
theorem execute_tool_round_eq_map (tm : ToolExecutor) (content : List RespBlock) :
    execute_tool_round tm content =
      (toolUses content).map (fun t =>
        match tm t.2.1 t.2.2 with
        | .ok out => { tool_use_id := t.1, content := out, is_error := false }
        | .error e =>
          { tool_use_id := t.1, content := "Error executing tool: " ++ e, is_error := true }) := by
  induction content with
  | nil => rfl
  | cons b rest ih =>
    cases b with
    | text s => simpa [execute_tool_round, toolUses] using ih
    | toolUse id name input => simp [execute_tool_round, toolUses, ih]
    | other => simpa [execute_tool_round, toolUses] using ih

/-- The dispatched results carry exactly the `tool_use` ids, in order. -/
theorem execute_tool_round_map_ids (tm : ToolExecutor) (content : List RespBlock) :
    (execute_tool_round tm content).map (fun r => r.tool_use_id) = toolUseIds content := by
  induction content with
  | nil => rfl
  | cons b rest ih =>
    cases b with
    | text s => simpa [execute_tool_round, toolUseIds] using ih
    | toolUse id name input =>
      cases h : tm name input <;> simp [execute_tool_round, toolUseIds, h, ih]
    | other => simpa [execute_tool_round, toolUseIds] using ih

/-- No `tool_use` blocks means an empty dispatch batch. -/
theorem execute_tool_round_nil_of_no_toolUses (tm : ToolExecutor) (content : List RespBlock)
    (h : toolUses content = []) : execute_tool_round tm content = [] := by
  rw [execute_tool_round_eq_map, h]; rfl

/-- Combined invariant of the orchestration loop: the number of in-loop
calls never exceeds the remaining fuel, and a recorded forced final call
implies the fuel was fully consumed, the final parameters carry no tools
and no tool choice, and the returned answer is the extracted text of the
final response. -/
theorem generate_loop_spec (client : CompletionService) (sys : String)
    (tools : Option (List ToolDef)) (tm : Option ToolExecutor) :
    ∀ (fuel : Nat) (messages : List Message),
      (generate_loop client sys tools tm messages fuel).loopCalls.length ≤ fuel ∧
      ∀ p, (generate_loop client sys tools tm messages fuel).finalCall = some p →
        p.tools = none ∧ p.tool_choice_auto = false ∧
        (generate_loop client sys tools tm messages fuel).loopCalls.length = fuel ∧
        (generate_loop client sys tools tm messages fuel).answer =
          extract_text_response (client p).content := by
  intro fuel
  induction fuel with
  | zero =>
    intro messages
    refine ⟨by simp [generate_loop], ?_⟩
    intro p hp
    have hp' : finalApiParams sys messages = p := by simpa [generate_loop] using hp
    subst hp'
    exact ⟨rfl, rfl, by simp [generate_loop], by simp [generate_loop]⟩
  | succ fuel ih =>
    intro messages
    by_cases hstop : (client (loopApiParams sys tools messages)).stop_reason = "tool_use"
    · cases tm with
      | none =>
        refine ⟨by simp [generate_loop, hstop], ?_⟩
        intro p hp
        simp [generate_loop, hstop] at hp
      | some ex =>
        cases hemp : (execute_tool_round ex (client (loopApiParams sys tools messages)).content).isEmpty with
        | true =>
          refine ⟨by simp [generate_loop, hstop, hemp], ?_⟩
          intro p hp
          simp [generate_loop, hstop, hemp] at hp
        | false =>
          have ih2 := ih (messages ++
            [{ role := "assistant", content := .blocks (client (loopApiParams sys tools messages)).content },
             { role := "user", content := .toolResults (execute_tool_round ex (client (loopApiParams sys tools messages)).content) }])
          refine ⟨?_, ?_⟩
          · simp only [generate_loop, hstop]
            simp [hemp]
            exact ih2.1
          · intro p hp
            simp only [generate_loop, hstop] at hp ⊢
            simp [hemp] at hp ⊢
            obtain ⟨h1, h2, h3, h4⟩ := ih2.2 p hp
            refine ⟨h1, h2, ?_, ?_⟩
            · omega
            · exact h4
    · refine ⟨by simp [generate_loop, hstop], ?_⟩
      intro p hp
      simp [generate_loop, hstop] at hp

/-- One-step lemma: a `tool_use` response with no tool manager returns the
no-manager sentinel. -/
theorem generate_loop_no_manager (client : CompletionService) (sys : String)
    (tools : Option (List ToolDef)) (messages : List Message) (fuel : Nat)
    (hstop : (client (loopApiParams sys tools messages)).stop_reason = "tool_use") :
    generate_loop client sys tools none messages (fuel + 1) =
      { answer := "Error: Tools requested but no tool manager available.",
        loopCalls := [loopApiParams sys tools messages], finalCall := none } := by
  simp [generate_loop, hstop]

/-- One-step lemma: a `tool_use` response whose dispatch batch is empty
returns the empty-batch sentinel. -/
theorem generate_loop_empty_batch (client : CompletionService) (sys : String)
    (tools : Option (List ToolDef)) (ex : ToolExecutor) (messages : List Message) (fuel : Nat)
    (hstop : (client (loopApiParams sys tools messages)).stop_reason = "tool_use")
    (hnil : execute_tool_round ex (client (loopApiParams sys tools messages)).content = []) :
    generate_loop client sys tools (some ex) messages (fuel + 1) =
      { answer := "Error: Unable to execute requested tools.",
        loopCalls := [loopApiParams sys tools messages], finalCall := none } := by
  simp [generate_loop, hstop, hnil]

/-! ### Claim theorems -/

/-- C1: For every orchestration run of `generate_response`, the total number
of Completion Service calls equals
`min(rounds_actually_used, max_rounds) + (1 if max_rounds reached with tool intent else 0)`
— `rounds_actually_used` being the in-loop model calls recorded in the
trace, and the forced final call (made exactly when the cap was reached
with tool intent) recorded in `finalCall` — and a terminal state is always
reached in at most `max_rounds + 1 = 3` model calls. -/
theorem generate_response_call_count (client : CompletionService) (query : String)
    (history : Option String) (tools : Option (List ToolDef)) (tm : Option ToolExecutor) :
    (generate_response client query history tools tm).totalCalls =
      min (generate_response client query history tools tm).loopCalls.length 2 +
        (if (generate_response client query history tools tm).finalCall.isSome then 1 else 0) ∧
    (generate_response client query history tools tm).totalCalls ≤ 2 + 1 := by
  have hlen : (generate_response client query history tools tm).loopCalls.length ≤ 2 :=
    (generate_loop_spec client (build_system_content history) tools tm 2 (initial_messages query)).1
  constructor
  · rw [Nat.min_eq_left hlen]
    unfold RunResult.totalCalls
    cases hf : (generate_response client query history tools tm).finalCall <;> simp [hf]
  · unfold RunResult.totalCalls
    cases hf : (generate_response client query history tools tm).finalCall <;> simp <;> omega

/-- C2: In every round whose model response has stop reason `tool_use` and
where a tool manager is supplied (and the dispatch batch is nonempty, as is
always the case when `tool_use` blocks are present), the conversation grows
by exactly two messages — the assistant message carrying the model content,
then one user message holding the tool results — and the results carry
exactly the ids of the `tool_use` blocks of that assistant message, in
order. -/
theorem tool_round_appends_two_messages (client : CompletionService) (sys : String)
    (tools : Option (List ToolDef)) (ex : ToolExecutor) (messages : List Message) (fuel : Nat)
    (response : ModelResponse) (tool_results : List ToolResult)
    (hresp : response = client (loopApiParams sys tools messages))
    (htr : tool_results = execute_tool_round ex response.content)
    (hstop : response.stop_reason = "tool_use")
    (hne : tool_results ≠ []) :
    (generate_loop client sys tools (some ex) messages (fuel + 1) =
      { generate_loop client sys tools (some ex)
          (messages ++ [({ role := "assistant", content := .blocks response.content } : Message),
                        ({ role := "user", content := .toolResults tool_results } : Message)]) fuel with
        loopCalls := loopApiParams sys tools messages ::
          (generate_loop client sys tools (some ex)
            (messages ++ [({ role := "assistant", content := .blocks response.content } : Message),
                          ({ role := "user", content := .toolResults tool_results } : Message)]) fuel).loopCalls }) ∧
    (messages ++ [({ role := "assistant", content := .blocks response.content } : Message),
                  ({ role := "user", content := .toolResults tool_results } : Message)]).length =
      messages.length + 2 ∧
    tool_results.map (fun r => r.tool_use_id) = toolUseIds response.content := by
  subst hresp
  subst htr
  refine ⟨?_, by simp, execute_tool_round_map_ids ex _⟩
  have hne' : (execute_tool_round ex
      (client (loopApiParams sys tools messages)).content).isEmpty = false := by
    cases h : execute_tool_round ex (client (loopApiParams sys tools messages)).content with
    | nil => exact absurd h hne
    | cons a l => rfl
  simp only [generate_loop, hstop]
  simp [hne']

/-- C3: `_execute_tool_round` is total (a raising dispatch never
propagates) and maps every `tool_use` block, in order and independently of
the other dispatches, to a tool result: a successful dispatch carries the
tool's output with no error flag, a raising dispatch carries
`"Error executing tool: " ++ msg` (which contains the raised message text)
with `is_error = true`; the batch is never truncated. -/
theorem tool_dispatch_containment (tm : ToolExecutor) (content : List RespBlock) :
    execute_tool_round tm content =
      (toolUses content).map (fun t =>
        match tm t.2.1 t.2.2 with
        | .ok out => { tool_use_id := t.1, content := out, is_error := false }
        | .error e =>
          { tool_use_id := t.1, content := "Error executing tool: " ++ e, is_error := true }) ∧
    (execute_tool_round tm content).length = (toolUses content).length ∧
    ∀ e : String, ∃ front, "Error executing tool: " ++ e = front ++ e :=
  ⟨execute_tool_round_eq_map tm content,
   by rw [execute_tool_round_eq_map]; simp,
   fun e => ⟨"Error executing tool: ", rfl⟩⟩

/-- C4: A run that exhausts the round cap makes exactly one additional
Completion Service call whose parameters omit the tool definitions and the
tool choice — whatever `tools` argument the earlier calls carried — and the
run returns that final response's extracted text (3 calls in total). -/
theorem forced_final_call_omits_tools (client : CompletionService) (query : String)
    (history : Option String) (tools : Option (List ToolDef)) (tm : Option ToolExecutor)
    (p : ApiParams)
    (h : (generate_response client query history tools tm).finalCall = some p) :
    p.tools = none ∧ p.tool_choice_auto = false ∧
    (generate_response client query history tools tm).loopCalls.length = 2 ∧
    (generate_response client query history tools tm).totalCalls = 2 + 1 ∧
    (generate_response client query history tools tm).answer =
      extract_text_response (client p).content := by
  unfold generate_response at h ⊢
  have hs := (generate_loop_spec client (build_system_content history) tools tm 2
    (initial_messages query)).2 p h
  refine ⟨hs.1, hs.2.1, hs.2.2.1, ?_, hs.2.2.2⟩
  unfold RunResult.totalCalls
  rw [h, hs.2.2.1]

/-- C5: When the first model response signals `tool_use`, a missing tool
manager yields the fixed no-manager sentinel as final answer, and a
response with no `tool_use` content blocks (with a manager present) yields
the fixed empty-batch sentinel — in both cases without raising. -/
theorem tool_use_sentinel_errors (client : CompletionService) (query : String)
    (history : Option String) (tools : Option (List ToolDef)) (ex : ToolExecutor)
    (response : ModelResponse)
    (hresp : response =
      client (loopApiParams (build_system_content history) tools (initial_messages query)))
    (hstop : response.stop_reason = "tool_use") :
    (generate_response client query history tools none).answer =
      "Error: Tools requested but no tool manager available." ∧
    (toolUses response.content = [] →
      (generate_response client query history tools (some ex)).answer =
        "Error: Unable to execute requested tools.") := by
  subst hresp
  constructor
  · rw [show (generate_response client query history tools none) =
        generate_loop client (build_system_content history) tools none
          (initial_messages query) (1 + 1) from rfl]
    rw [generate_loop_no_manager client _ tools _ 1 hstop]
  · intro hnb
    rw [show (generate_response client query history tools (some ex)) =
        generate_loop client (build_system_content history) tools (some ex)
          (initial_messages query) (1 + 1) from rfl]
    rw [generate_loop_empty_batch client _ tools ex _ 1 hstop
      (execute_tool_round_nil_of_no_toolUses ex _ hnb)]

/-- Witness for C2 at a concrete run: `wClient` requests tool `t`, `wExec`
answers, and the round appends exactly the assistant and tool-result user
messages with matching ids. -/
theorem tool_round_appends_two_messages_witness :
    (wResp = wClient (loopApiParams SYSTEM_PROMPT (some wToolDefs) (initial_messages "q"))) ∧
    (([wTR] : List ToolResult) = execute_tool_round wExec wResp.content) ∧
    (wResp.stop_reason = "tool_use") ∧
    (([wTR] : List ToolResult) ≠ []) ∧
    ((generate_loop wClient SYSTEM_PROMPT (some wToolDefs) (some wExec)
        (initial_messages "q") (1 + 1) =
      { generate_loop wClient SYSTEM_PROMPT (some wToolDefs) (some wExec)
          (initial_messages "q" ++
            [({ role := "assistant", content := .blocks wResp.content } : Message),
             ({ role := "user", content := .toolResults [wTR] } : Message)]) 1 with
        loopCalls := loopApiParams SYSTEM_PROMPT (some wToolDefs) (initial_messages "q") ::
          (generate_loop wClient SYSTEM_PROMPT (some wToolDefs) (some wExec)
            (initial_messages "q" ++
              [({ role := "assistant", content := .blocks wResp.content } : Message),
               ({ role := "user", content := .toolResults [wTR] } : Message)]) 1).loopCalls }) ∧
    (initial_messages "q" ++
      [({ role := "assistant", content := .blocks wResp.content } : Message),
       ({ role := "user", content := .toolResults [wTR] } : Message)]).length =
        (initial_messages "q").length + 2 ∧
    ([wTR] : List ToolResult).map (fun r => r.tool_use_id) = toolUseIds wResp.content) :=
  ⟨rfl, rfl, rfl, by decide,
   tool_round_appends_two_messages wClient SYSTEM_PROMPT (some wToolDefs) wExec
     (initial_messages "q") 1 wResp [wTR] rfl rfl rfl (by decide)⟩

/-- Witness for C4 at a concrete run: two tool rounds exhaust the cap and
the recorded forced final call carries no tools. -/
theorem forced_final_call_omits_tools_witness :
    ((generate_response wClient "q" none (some wToolDefs) (some wExec)).finalCall =
      some wFinalParams) ∧
    (wFinalParams.tools = none ∧ wFinalParams.tool_choice_auto = false ∧
      (generate_response wClient "q" none (some wToolDefs) (some wExec)).loopCalls.length = 2 ∧
      (generate_response wClient "q" none (some wToolDefs) (some wExec)).totalCalls = 2 + 1 ∧
      (generate_response wClient "q" none (some wToolDefs) (some wExec)).answer =
        extract_text_response (wClient wFinalParams).content) :=
  ⟨rfl,
   forced_final_call_omits_tools wClient "q" none (some wToolDefs) (some wExec) wFinalParams rfl⟩

/-- Witness for C5 at a concrete run: `wClientNoBlocks` signals `tool_use`
with no `tool_use` blocks, and both sentinel answers are observed. -/
theorem tool_use_sentinel_errors_witness :
    (wRespNoBlocks =
      wClientNoBlocks (loopApiParams (build_system_content none) none (initial_messages "q"))) ∧
    (wRespNoBlocks.stop_reason = "tool_use") ∧
    toolUses wRespNoBlocks.content = [] ∧
    (generate_response wClientNoBlocks "q" none none none).answer =
      "Error: Tools requested but no tool manager available." ∧
    (generate_response wClientNoBlocks "q" none none (some wExec)).answer =
      "Error: Unable to execute requested tools." :=
  ⟨rfl, rfl, rfl,
   (tool_use_sentinel_errors wClientNoBlocks "q" none none wExec wRespNoBlocks rfl rfl).1,
   (tool_use_sentinel_errors wClientNoBlocks "q" none none wExec wRespNoBlocks rfl rfl).2 rfl⟩

/-- Looking up the key just inserted by Python dict assignment yields the
newly assigned value (the overwrite semantics of `d[k] = v`). -/
theorem dict_lookup_insert {α : Type} (l : List (String × α)) (k : String) (v : α) :
    dict_lookup (dict_insert l k v) k = some v := by
  induction l with
  | nil => simp [dict_insert, dict_lookup]
  | cons p rest ih =>
    obtain ⟨k0, v0⟩ := p
    by_cases h : k0 = k
    · simp [dict_insert, dict_lookup, h]
    · simp [dict_insert, dict_lookup, h, ih]

/-- C6 counterexample: with both filters set and empty results the message
carries both clauses, but a stale prior source list survives the call —
`last_sources` is NOT empty afterwards, refuting the claim for arbitrary
prior tool state. -/
theorem course_search_empty_stale_sources_ce :
    (CourseSearchTool.execute emptyStore [staleSource] "q" (some "MCP") (some 1)).1 =
      "No relevant content found in course \x27MCP\x27 in lesson 1." ∧
    (CourseSearchTool.execute emptyStore [staleSource] "q" (some "MCP") (some 1)).2 ≠ [] := by
  constructor
  · decide
  · decide

/-- C6 (amended): with empty results (no error) and both filters truthy,
the returned message is exactly
`"No relevant content found in course '<name>' in lesson <n>."` — the
course clause preceding the lesson clause — and the call leaves
`last_sources` unchanged (in particular it remains empty for a fresh tool;
an empty-result execution does not overwrite the source list). -/
theorem course_search_empty_message_preserves_sources (store : VectorStoreModel)
    (source_state : List SourceRecord) (query c : String) (n : Int)
    (hc : c ≠ "") (hn : n ≠ 0)
    (hdocs : (store.search query (some c) (some n)).documents = [])
    (herr : (store.search query (some c) (some n)).error = none) :
    (CourseSearchTool.execute store source_state query (some c) (some n)).1 =
      "No relevant content found" ++ (" in course \x27" ++ c ++ "\x27") ++
        (" in lesson " ++ toString n) ++ "." ∧
    (CourseSearchTool.execute store source_state query (some c) (some n)).2 = source_state := by
  simp only [CourseSearchTool.execute, herr]
  simp [execute_after_error_check, SearchResults.is_empty, hdocs, search_empty_message,
    hc, hn, String.append_assoc]

/-- Witness for C6 (amended) at a concrete store and fresh tool state. -/
theorem course_search_empty_message_preserves_sources_witness :
    (("MCP" : String) ≠ "") ∧ ((1 : Int) ≠ 0) ∧
    (emptyStore.search "q" (some "MCP") (some 1)).documents = [] ∧
    (emptyStore.search "q" (some "MCP") (some 1)).error = none ∧
    ((CourseSearchTool.execute emptyStore [] "q" (some "MCP") (some 1)).1 =
      "No relevant content found" ++ (" in course \x27MCP\x27") ++
        (" in lesson " ++ toString (1 : Int)) ++ "." ∧
     (CourseSearchTool.execute emptyStore [] "q" (some "MCP") (some 1)).2 = []) :=
  ⟨by decide, by decide, rfl, rfl,
   course_search_empty_message_preserves_sources emptyStore [] "q" "MCP" 1
     (by decide) (by decide) rfl rfl⟩

/-- C7 counterexample: the returned string is not exactly
`"No course found matching '<name>'"` — the source appends a suggestion
sentence after it. -/
theorem outline_not_found_exact_string_ce :
    (CourseOutlineTool.execute emptyStore [] "Quantum").1 ≠
      "No course found matching \x27Quantum\x27" := by decide

/-- C7 (amended): when the fuzzy resolver fails to resolve the course name,
the outline tool returns — without raising — the string
`"No course found matching '<course_name>'. Please try a different course name."`
(a message beginning with the claimed text), leaving the tool's source
state untouched. -/
theorem outline_not_found_message (store : VectorStoreModel)
    (source_state : List SourceRecord) (course_name : String)
    (h : store.resolve_course_name course_name = none) :
    (CourseOutlineTool.execute store source_state course_name).1 =
      "No course found matching \x27" ++ course_name ++
        "\x27. Please try a different course name." ∧
    (CourseOutlineTool.execute store source_state course_name).2 = source_state := by
  simp [CourseOutlineTool.execute, h]

/-- Witness for C7 (amended) at a concrete store whose resolver finds
nothing. -/
theorem outline_not_found_message_witness :
    emptyStore.resolve_course_name "Quantum" = none ∧
    ((CourseOutlineTool.execute emptyStore [staleSource] "Quantum").1 =
      "No course found matching \x27Quantum\x27. Please try a different course name." ∧
     (CourseOutlineTool.execute emptyStore [staleSource] "Quantum").2 = [staleSource]) :=
  ⟨rfl, outline_not_found_message emptyStore [staleSource] "Quantum" rfl⟩

/-- C8 counterexample: registering a second tool under an already-taken
name does not raise — both registrations succeed and the second silently
overwrites the first (the registry then holds one tool, dispatching to the
second). -/
theorem register_duplicate_silently_overwrites_ce :
    emptyManager.register_tool regToolOne = .ok oneToolManager ∧
    oneToolManager.register_tool regToolTwo =
      .ok { tools := [("t", regToolTwo)], last_executed_tool := none } ∧
    (({ tools := [("t", regToolTwo)], last_executed_tool := none } : ToolManager).execute_tool
      "t" []).1 = .ok "two" :=
  ⟨rfl, rfl, rfl⟩

/-- C8 (amended): a definition lacking a truthy name raises the
configuration error at registration time (fail fast); a duplicate name does
NOT raise — the second registration succeeds and silently overwrites the
earlier tool under that name, as the registry lookup then returns the new
tool. -/
theorem register_tool_fail_fast_and_overwrite (mgr : ToolManager)
    (t1 t2 tu : ToolModel) (n : String)
    (h1 : t1.definition.name = some n) (h2 : t2.definition.name = some n)
    (hn : n ≠ "") (hu : tu.definition.name = none) :
    mgr.register_tool tu = .error "Tool must have a \x27name\x27 in its definition" ∧
    mgr.register_tool t1 = .ok { mgr with tools := dict_insert mgr.tools n t1 } ∧
    ({ mgr with tools := dict_insert mgr.tools n t1 } : ToolManager).register_tool t2 =
      .ok { mgr with tools := dict_insert (dict_insert mgr.tools n t1) n t2 } ∧
    dict_lookup (dict_insert (dict_insert mgr.tools n t1) n t2) n = some t2 := by
  refine ⟨?_, ?_, ?_, dict_lookup_insert _ n t2⟩
  · simp [ToolManager.register_tool, hu]
  · simp [ToolManager.register_tool, h1, hn]
  · simp [ToolManager.register_tool, h2, hn]

/-- Witness for C8 (amended) at concrete tools and an empty manager. -/
theorem register_tool_fail_fast_and_overwrite_witness :
    regToolOne.definition.name = some "t" ∧
    regToolTwo.definition.name = some "t" ∧
    (("t" : String) ≠ "") ∧
    regToolUnnamed.definition.name = none ∧
    (emptyManager.register_tool regToolUnnamed =
        .error "Tool must have a \x27name\x27 in its definition" ∧
      emptyManager.register_tool regToolOne =
        .ok { emptyManager with tools := dict_insert emptyManager.tools "t" regToolOne } ∧
      ({ emptyManager with
          tools := dict_insert emptyManager.tools "t" regToolOne } : ToolManager).register_tool
          regToolTwo =
        .ok { emptyManager with
          tools := dict_insert (dict_insert emptyManager.tools "t" regToolOne) "t" regToolTwo } ∧
      dict_lookup (dict_insert (dict_insert emptyManager.tools "t" regToolOne) "t" regToolTwo)
        "t" = some regToolTwo) :=
  ⟨rfl, rfl, by decide, rfl,
   register_tool_fail_fast_and_overwrite emptyManager regToolOne regToolTwo regToolUnnamed "t"
     rfl rfl (by decide) rfl⟩

/-- C9: executing an unregistered name returns — without raising — the
string `"Tool '<name>' not found"`, which ends in "not found", and leaves
the manager unchanged; executing a registered name records that name as the
most recently executed tool and returns that tool's `execute` result. -/
theorem execute_tool_dispatch (mgr : ToolManager) (name : String)
    (params : List (String × String)) :
    (dict_lookup mgr.tools name = none →
      (mgr.execute_tool name params).1 = .ok ("Tool \x27" ++ name ++ "\x27 not found") ∧
      (mgr.execute_tool name params).2 = mgr) ∧
    (∀ s : String,
      "Tool \x27" ++ s ++ "\x27 not found" = ("Tool \x27" ++ s ++ "\x27 ") ++ "not found") ∧
    (∀ tool, dict_lookup mgr.tools name = some tool →
      (mgr.execute_tool name params).1 = tool.execute params ∧
      (mgr.execute_tool name params).2 = { mgr with last_executed_tool := some name }) := by
  refine ⟨?_, ?_, ?_⟩
  · intro h
    unfold ToolManager.execute_tool
    rw [h]
    exact ⟨rfl, rfl⟩
  · intro s
    exact ((String.append_assoc ("Tool \x27" ++ s) "\x27 " "not found").trans rfl).symm
  · intro tool h
    unfold ToolManager.execute_tool
    rw [h]
    exact ⟨rfl, rfl⟩

/-- Witness for C9: an unknown name and a registered name, dispatched
through a concrete one-tool manager. -/
theorem execute_tool_dispatch_witness :
    dict_lookup oneToolManager.tools "missing" = none ∧
    ((oneToolManager.execute_tool "missing" []).1 =
      .ok ("Tool \x27" ++ "missing" ++ "\x27 not found")) ∧
    ((oneToolManager.execute_tool "missing" []).2 = oneToolManager) ∧
    dict_lookup oneToolManager.tools "t" = some regToolOne ∧
    ((oneToolManager.execute_tool "t" []).1 = regToolOne.execute []) ∧
    ((oneToolManager.execute_tool "t" []).2 =
      { oneToolManager with last_executed_tool := some "t" }) :=
  ⟨rfl,
   ((execute_tool_dispatch oneToolManager "missing" []).1 rfl).1,
   ((execute_tool_dispatch oneToolManager "missing" []).1 rfl).2,
   rfl,
   ((execute_tool_dispatch oneToolManager "t" []).2.2 regToolOne rfl).1,
   ((execute_tool_dispatch oneToolManager "t" []).2.2 regToolOne rfl).2⟩

/-- C10: with `lesson_number = 0` and empty results the message omits the
lesson clause (`if lesson_number:` is false at 0 under Python truthiness,
so the empty-result suffix behaves as if no lesson filter were given),
while `_format_results` — which tests `is not None` — does include
"Lesson 0" in the block header and in the source record, looking up the
lesson-0 link. -/
theorem lesson_zero_truthiness (store : VectorStoreModel)
    (source_state : List SourceRecord) (query d t : String) (c : Option String)
    (hdocs : (store.search query c (some 0)).documents = [])
    (herr : (store.search query c (some 0)).error = none) :
    (CourseSearchTool.execute store source_state query c (some 0)).1 =
      search_empty_message c none ∧
    search_empty_message c (some 0) = search_empty_message c none ∧
    (format_results store
      { documents := [d],
        metadata := [{ course_title := some t, lesson_number := some 0 }],
        error := none }).1 = "[" ++ t ++ " - Lesson 0]" ++ "\n" ++ d ∧
    (format_results store
      { documents := [d],
        metadata := [{ course_title := some t, lesson_number := some 0 }],
        error := none }).2 =
      [{ text := t ++ " - Lesson 0", url := store.get_lesson_link t 0 }] := by
  refine ⟨?_, rfl, ?_, ?_⟩
  · simp only [CourseSearchTool.execute, herr]
    simp [execute_after_error_check, SearchResults.is_empty, hdocs]
    rfl
  · simp only [format_results, String.append_assoc]
    simp [String.append_assoc]
    rfl
  · simp only [format_results]
    simp [String.append_assoc]
    rfl

/-- Witness for C10 at a concrete store, document and metadata. -/
theorem lesson_zero_truthiness_witness :
    (emptyStore.search "q" (some "C") (some 0)).documents = [] ∧
    (emptyStore.search "q" (some "C") (some 0)).error = none ∧
    ((CourseSearchTool.execute emptyStore [] "q" (some "C") (some 0)).1 =
      search_empty_message (some "C") none ∧
     search_empty_message (some "C") (some 0) = search_empty_message (some "C") none ∧
     (format_results emptyStore
       { documents := ["doc"],
         metadata := [{ course_title := some "T", lesson_number := some 0 }],
         error := none }).1 = "[" ++ "T" ++ " - Lesson 0]" ++ "\n" ++ "doc" ∧
     (format_results emptyStore
       { documents := ["doc"],
         metadata := [{ course_title := some "T", lesson_number := some 0 }],
         error := none }).2 =
       [{ text := "T" ++ " - Lesson 0", url := emptyStore.get_lesson_link "T" 0 }]) :=
  ⟨rfl, rfl, lesson_zero_truthiness emptyStore [] "q" "doc" "T" (some "C") rfl rfl⟩
